import Mathlib

/-!
Shallow embedding of the rebel47/streamlit-auth repository:
`src/app.py` (nutrition-label analysis pipeline) and `src/main.py`
(health & fitness tracker over flat files).

Conventions of the embedding:
* Python float arithmetic is embedded as exact rational arithmetic on `ℚ`;
  decimal literals of the source become the same rationals.
* Python exceptions become `Except PyErr`; `raise ValueError(f"... {str(e)}")`
  becomes rebuilding the message with `++`.
* The hosted model (`model.generate_content`) is embedded as an oracle: a
  stream of outcomes for successive calls, each call consuming the head.
* `json.loads` of the Python standard library is not code of this repository;
  it is abstracted as a parameter `loads` mapping the prepared text to either
  a decoded `Json` value or the message of the `JSONDecodeError`.
* `json.dump`/`json.load` and `DataFrame.to_csv`/`read_csv` full-file writes
  and reads are trusted inverse pairs of the standard libraries, so a file is
  embedded as the document it holds (`none` = file absent on disk).
-/

/-- Python exception values raised by the embedded code. -/
inductive PyErr where
  | valueError (msg : String)
  | typeError (msg : String)
  | keyError (msg : String)
deriving DecidableEq, Repr

/-- Python `str(e)` on a caught exception: the message it carries. -/
def str_of_err : PyErr → String
  | .valueError m => m
  | .typeError m => m
  | .keyError m => m

/-- JSON values as decoded by Python `json.loads`. -/
inductive Json where
  | null
  | bool (b : Bool)
  | num (q : ℚ)
  | str (s : String)
  | arr (elems : List Json)
  | obj (fields : List (String × Json))

/-- Python `round(x)`: nearest integer, ties to even. -/
def pyRound (q : ℚ) : ℤ :=
  let f := ⌊q⌋
  let r := q - (f : ℚ)
  if r < 1/2 then f
  else if 1/2 < r then f + 1
  else if f % 2 = 0 then f else f + 1

/-- Python `round(x, 2)`: two decimal places, ties to even. -/
def pyRound2 (q : ℚ) : ℚ := (pyRound (q * 100) : ℚ) / 100

/-- Python `d.get(key, 0)` on a numeric mapping. -/
def pyGet (d : List (String × ℚ)) (k : String) : ℚ := (d.lookup k).getD 0

/-! ### src/app.py -/

/-- `self.thresholds` of `NutritionAnalyzer.__init__`. -/
def thresholds : List (String × ℚ) :=
  [("calories", 300), ("sugar", 25), ("saturated_fat", 5),
   ("sodium", 600), ("protein", 5)]

/-- The dict subscript `self.thresholds[k]` (every key used is present). -/
def thresholdOf (k : String) : ℚ := (thresholds.lookup k).getD 0

/-- A PIL image: what matters to the code is its size and its mode. -/
structure PILImage where
  width : Nat
  height : Nat
  mode : String
deriving DecidableEq, Repr

/-- `NutritionAnalyzer.preprocess_image`.  The argument is the outcome of
`Image.open(image_file)` (`.error` = the decode raised).  `int(dim * ratio)`
with `ratio = max_size / max(image.size)` truncates a positive value, which
on exact rationals is floor, i.e. `Nat` division `dim * 1024 / m`. -/
def preprocess_image (image_file : Except String PILImage) :
    Except PyErr PILImage :=
  match image_file with
  | .error e => .error (.valueError ("Error processing image: " ++ e))
  | .ok image0 =>
    let image := if image0.mode = "RGB" ∨ image0.mode = "L" then image0
                 else { image0 with mode := "RGB" }
    let max_size : Nat := 1024
    let m := max image.width image.height
    if m > max_size then
      .ok { image with width := image.width * max_size / m,
                       height := image.height * max_size / m }
    else .ok image

/-- The backquote character, `chr 96`. -/
def backquote : Char := Char.ofNat 96

/-- The opening curly brace character, `chr 123`. -/
def lbrace : Char := Char.ofNat 123

/-- The closing curly brace character, `chr 125`. -/
def rbrace : Char := Char.ofNat 125

/-- The characters stripped by Python `str.strip()` with no argument. -/
def isPyWS (c : Char) : Bool :=
  c == ' ' || c == '\t' || c == '\n' || c == '\r' || c == '\x0b' || c == '\x0c'

/-- Membership in the strip set of `str.strip(chr 96)`. -/
def isBq (c : Char) : Bool := c == backquote

/-- Python two-sided `str.strip`: drop characters satisfying `p` from both
ends. -/
def pyStrip (p : Char → Bool) (l : List Char) : List Char :=
  ((l.dropWhile p).reverse.dropWhile p).reverse

/-- Python `s.startswith("json")`: the first four characters are `json`. -/
def startsWithJson (l : List Char) : Bool :=
  decide (l.take 4 = ['j', 's', 'o', 'n'])

/-- The parse preparation of `extract_nutrition_info`:
`response.text.strip(chr 96).strip()`, then `json_str[4:]` when the result
starts with the tag `json`. -/
def strip_model_text (t : List Char) : List Char :=
  let json_str := pyStrip isPyWS (pyStrip isBq t)
  if startsWithJson json_str then json_str.drop 4 else json_str

/-- The fixed prompt of `extract_nutrition_info` (lines 46-60 of app.py). -/
def nutrition_prompt : String :=
  "\n        Analyze this nutrition label and extract the following information in JSON format:\n        \x7b\n            \"calories\": number,\n            \"protein\": number (in grams),\n            \"carbohydrates\": number (in grams),\n            \"sugar\": number (in grams),\n            \"fat\": number (in grams),\n            \"saturated_fat\": number (in grams),\n            \"sodium\": number (in mg),\n            \"fiber\": number (in grams),\n            \"serving_size\": string\n        \x7d\n        Only include numerical values, no units in the numbers.\n        "

/-- `NutritionAnalyzer.extract_nutrition_info`.  Makes one
`generate_content` call: it consumes exactly the head of the oracle stream.
Everything runs under the `try`, so both a failing call and a failing
`json.loads` surface as `ValueError("Error analyzing image: " + str(e))`. -/
def extract_nutrition_info (loads : List Char → Except String Json)
    (responses : List (Except String String)) (image : PILImage) :
    Except PyErr Json × List (Except String String) :=
  match responses with
  | [] => (.error (.valueError "Error analyzing image: model unavailable"), [])
  | resp :: rest =>
    match resp with
    | .error e => (.error (.valueError ("Error analyzing image: " ++ e)), rest)
    | .ok text =>
      match loads (strip_model_text text.data) with
      | .ok j => (.ok j, rest)
      | .error e => (.error (.valueError ("Error analyzing image: " ++ e)), rest)

/-- The `scores` dict built by `calculate_health_score`. -/
structure ComponentScores where
  calories : Nat
  sugar : Nat
  saturated_fat : Nat
  sodium : Nat
  protein : Nat
deriving DecidableEq, Repr

/-- The dict returned by `calculate_health_score`. -/
structure HealthScore where
  total_score : ℚ
  component_scores : ComponentScores
deriving DecidableEq, Repr

/-- `NutritionAnalyzer.calculate_health_score`.  `len(scores)` is 5. -/
def calculate_health_score (nutrition_data : List (String × ℚ)) : HealthScore :=
  let scores : ComponentScores :=
    { calories :=
        if pyGet nutrition_data "calories" ≤ thresholdOf "calories" then 1 else 0
      sugar :=
        if pyGet nutrition_data "sugar" ≤ thresholdOf "sugar" then 1 else 0
      saturated_fat :=
        if pyGet nutrition_data "saturated_fat" ≤ thresholdOf "saturated_fat" then 1 else 0
      sodium :=
        if pyGet nutrition_data "sodium" ≤ thresholdOf "sodium" then 1 else 0
      protein :=
        if pyGet nutrition_data "protein" ≥ thresholdOf "protein" then 1 else 0 }
  { total_score :=
      ((scores.calories + scores.sugar + scores.saturated_fat +
        scores.sodium + scores.protein : Nat) : ℚ) / 5 * 100
    component_scores := scores }

/-- The prompt returned by `get_analysis_prompt` for "Food Label". -/
def food_label_prompt : String :=
  "\n            You are an expert nutritionist analyzing a nutrition label. Extract the following information:\n            - Calories (per serving)\n            - Protein (g)\n            - Carbohydrates (g)\n            - Fat (g)\n            - Serving size\n            \n            Respond in JSON format with these exact keys: \n            \x7b\n                \"calories\": number,\n                \"protein\": number,\n                \"carbohydrates\": number,\n                \"fat\": number,\n                \"serving_size\": string\n            \x7d\n            Only provide the JSON data, no additional text.\n            "

/-- The prompt returned by `get_analysis_prompt` for any other image type. -/
def food_image_prompt : String :=
  "\n            You are an expert nutritionist. Analyze this food image and:\n            1. Identify all visible food items\n            2. Estimate portion sizes\n            3. Calculate approximate calories for each item\n            \n            Respond in JSON format:\n            \x7b\n                \"food_items\": [\n                    \x7b\n                        \"name\": \"item name\",\n                        \"portion\": \"portion size\",\n                        \"calories\": number\n                    \x7d\n                ],\n                \"total_calories\": number\n            \x7d\n            Be specific about portions but don\x27t include disclaimers about estimates.\n            Only provide the JSON data, no additional text.\n            "

/-- `NutritionAnalyzer.get_analysis_prompt`: note the source defines it with
the single positional parameter `image_type` and no `self`. -/
def get_analysis_prompt (image_type : String) : String :=
  if image_type = "Food Label" then food_label_prompt else food_image_prompt

/-- Grammar of the Python arity message. -/
def pluralArgs (n : Nat) : String :=
  if n == 1 then " positional argument " else " positional arguments "

/-- Python bound-method call `obj.m(a1, .., ak)`: it supplies `k + 1`
positional arguments (the instance is passed first).  When the function was
defined with a different number of positional parameters, Python raises a
`TypeError` before the body runs (the unqualified-name rendering of the
message is used). -/
def pyBoundCall (name : String) (paramCount explicitArgs : Nat)
    (run : Unit → Except PyErr α) : Except PyErr α :=
  if paramCount == explicitArgs + 1 then run ()
  else .error (.typeError (name ++ "() takes " ++ toString paramCount ++
    pluralArgs paramCount ++ "but " ++ toString (explicitArgs + 1) ++
    " were given"))

/-- Python subscript `result["key"]` on a decoded JSON value. -/
def Json.getItem (j : Json) (k : String) : Except PyErr Json :=
  match j with
  | .obj fields =>
    match fields.lookup k with
    | some v => .ok v
    | none => .error (.keyError k)
  | _ => .error (.typeError "value is not subscriptable")

/-- The numeric fields of a decoded JSON object: the mapping that
`calculate_health_score` reads with `dict.get(key, 0)`. -/
def Json.numFields : Json → List (String × ℚ)
  | .obj fields => fields.filterMap (fun kv =>
      match kv.2 with
      | .num q => some (kv.1, q)
      | _ => none)
  | _ => []

/-- The two shapes of dict returned by `analyze_nutrition`. -/
inductive AnalysisResult where
  | label (nutrition_data : Json) (health_score : HealthScore)
  | food (food_items : Json) (nutrition_data : Json)

/-- `analyze_nutrition` of app.py.  The whole body runs under a `try` whose
handler raises `ValueError("Analysis failed: " + str(e))`.

Two bound calls inside the `try` carry Python arity errors:
* `analyzer.get_analysis_prompt(image_type)` — the method is defined with the
  single parameter `image_type` (no `self`), so the bound call supplies two
  positional arguments;
* `analyzer.extract_nutrition_info(processed_image, prompt)` — the method is
  defined with the two parameters `(self, image)`, so the bound call supplies
  three positional arguments. -/
def analyze_nutrition (loads : List Char → Except String Json)
    (responses : List (Except String String))
    (image_file : Except String PILImage) (image_type : String) :
    Except PyErr AnalysisResult × List (Except String String) :=
  match preprocess_image image_file with
  | .error e =>
    (.error (.valueError ("Analysis failed: " ++ str_of_err e)), responses)
  | .ok processed_image =>
    match pyBoundCall "get_analysis_prompt" 1 1
        (fun _ => .ok (get_analysis_prompt image_type)) with
    | .error e =>
      (.error (.valueError ("Analysis failed: " ++ str_of_err e)), responses)
    | .ok _prompt =>
      match pyBoundCall "extract_nutrition_info" 2 2 (fun _ => .ok ()) with
      | .error e =>
        (.error (.valueError ("Analysis failed: " ++ str_of_err e)), responses)
      | .ok _ =>
        match extract_nutrition_info loads responses processed_image with
        | (.error e, rest) =>
          (.error (.valueError ("Analysis failed: " ++ str_of_err e)), rest)
        | (.ok result, rest) =>
          if image_type = "Food Label" then
            (.ok (.label result (calculate_health_score result.numFields)), rest)
          else
            match result.getItem "food_items" with
            | .error e =>
              (.error (.valueError ("Analysis failed: " ++ str_of_err e)), rest)
            | .ok items =>
              match result.getItem "total_calories" with
              | .error e =>
                (.error (.valueError ("Analysis failed: " ++ str_of_err e)), rest)
              | .ok tc =>
                (.ok (.food items (.obj [("calories", tc), ("protein", .num 0),
                  ("carbohydrates", .num 0), ("fat", .num 0)])), rest)

/-- Recommendation text for high calories. -/
def portionRec : String := "Consider portion control to reduce calorie intake"

/-- Recommendation text for high sugar. -/
def sugarRec : String :=
  "High in sugar - try finding alternatives with less added sugar"

/-- Recommendation text for high saturated fat. -/
def satFatRec : String :=
  "High in saturated fat - look for options with healthier fats"

/-- Recommendation text for high sodium. -/
def sodiumRec : String :=
  "High sodium content - consider low-sodium alternatives"

/-- Fallback text when no recommendation was produced. -/
def healthyRec : String :=
  "This food item fits within healthy nutritional guidelines"

/-- `generate_recommendations` of app.py (its `health_score` argument is
taken and not used, exactly as in the source). -/
def generate_recommendations (nutrition_data : List (String × ℚ))
    (health_score : HealthScore) : List String :=
  let recommendations : List String := []
  let recommendations :=
    if pyGet nutrition_data "calories" > 300
    then recommendations ++ [portionRec] else recommendations
  let recommendations :=
    if pyGet nutrition_data "sugar" > 25
    then recommendations ++ [sugarRec] else recommendations
  let recommendations :=
    if pyGet nutrition_data "saturated_fat" > 5
    then recommendations ++ [satFatRec] else recommendations
  let recommendations :=
    if pyGet nutrition_data "sodium" > 600
    then recommendations ++ [sodiumRec] else recommendations
  let recommendations :=
    if recommendations = []
    then recommendations ++ [healthyRec] else recommendations
  recommendations

/-! ### src/main.py -/

/-- `calculate_bmi` of main.py. -/
def calculate_bmi (weight height_cm : ℚ) : ℚ :=
  let height_m := height_cm / 100
  pyRound2 (weight / (height_m * height_m))

/-- `get_bmi_category` of main.py. -/
def get_bmi_category (bmi : ℚ) : String :=
  if bmi < 18.5 then "Underweight"
  else if bmi < 25 then "Normal weight"
  else if bmi < 30 then "Overweight"
  else "Obese"

/-- The `activity_multipliers` dict of `calculate_daily_calories`. -/
def activity_multipliers : List (String × ℚ) :=
  [("Sedentary", 1.2), ("Light", 1.375), ("Moderate", 1.55),
   ("Active", 1.725), ("Very Active", 1.9)]

/-- `calculate_daily_calories` of main.py.  The dict subscript
`activity_multipliers[activity_level]` raises `KeyError` on a key that is not
present, embedded as `none`. -/
def calculate_daily_calories (weight height age : ℚ)
    (gender activity_level goal : String) : Option ℤ :=
  let bmr := if gender = "Male"
    then 88.362 + (13.397 * weight) + (4.799 * height) - (5.677 * age)
    else 447.593 + (9.247 * weight) + (3.098 * height) - (4.330 * age)
  match activity_multipliers.lookup activity_level with
  | none => none
  | some mult =>
    let maintenance_calories := bmr * mult
    if goal = "Weight Loss" then some (pyRound (maintenance_calories - 500))
    else if goal = "Weight Gain" then some (pyRound (maintenance_calories + 500))
    else some (pyRound maintenance_calories)

/-- One value of the `EXERCISE_CATEGORIES` dict. -/
structure ExerciseCategory where
  exercises : List String
  calories_per_minute : Nat
deriving DecidableEq, Repr

/-- The `EXERCISE_CATEGORIES` constant of main.py. -/
def EXERCISE_CATEGORIES : List (String × ExerciseCategory) :=
  [("Cardio", ⟨["Walking", "Running", "Cycling", "Swimming", "Jump Rope"], 7⟩),
   ("Strength", ⟨["Push-ups", "Pull-ups", "Squats", "Lunges", "Planks",
     "Deadlifts"], 5⟩),
   ("Flexibility", ⟨["Yoga", "Stretching", "Pilates"], 3⟩),
   ("HIIT", ⟨["Burpees", "Mountain Climbers", "Box Jumps",
     "Sprint Intervals"], 10⟩)]

/-- A row of data/food_log.csv. -/
structure FoodRow where
  date : String
  meal_type : String
  food_item : String
  calories : ℚ
  protein : ℚ
  carbs : ℚ
  fat : ℚ
deriving DecidableEq, Repr

/-- A row of data/workout_log.csv. -/
structure WorkoutRow where
  date : String
  exercise_type : String
  exercise : String
  duration : Nat
  calories_burned : Nat
deriving DecidableEq, Repr

/-- A row of data/progress_data.csv.  The Log Weight action appends a frame
with only the `date` and `weight` columns, so the two other columns of the
schema are optional (absent = NaN after `pd.concat`). -/
structure ProgressRow where
  date : String
  weight : ℚ
  calories_consumed : Option ℚ
  exercise_minutes : Option ℚ
deriving DecidableEq, Repr

/-- The four data files used by main.py, each holding the document last
written to it (`none` = the file does not exist). -/
structure DataFiles where
  user_data : Option Json
  progress : Option (List ProgressRow)
  food_log : Option (List FoodRow)
  workout_log : Option (List WorkoutRow)

/-- `load_data`: `json.load` of the user file, `{}` when the file is
missing (`FileNotFoundError`). -/
def load_data (fs : DataFiles) : Json := fs.user_data.getD (Json.obj [])

/-- `save_data`: full-file rewrite of the user file with `json.dump`. -/
def save_data (data : Json) (fs : DataFiles) : DataFiles :=
  { fs with user_data := some data }

/-- `load_progress`: `read_csv`, or the empty frame when the file is
missing. -/
def load_progress (fs : DataFiles) : List ProgressRow := fs.progress.getD []

/-- `save_progress`: full-file rewrite with `to_csv`. -/
def save_progress (df : List ProgressRow) (fs : DataFiles) : DataFiles :=
  { fs with progress := some df }

/-- `load_food_log`: `read_csv`, or the empty frame when the file is
missing. -/
def load_food_log (fs : DataFiles) : List FoodRow := fs.food_log.getD []

/-- `save_food_log`: full-file rewrite with `to_csv`. -/
def save_food_log (df : List FoodRow) (fs : DataFiles) : DataFiles :=
  { fs with food_log := some df }

/-- `load_workout_log`: `read_csv`, or the empty frame when the file is
missing. -/
def load_workout_log (fs : DataFiles) : List WorkoutRow :=
  fs.workout_log.getD []

/-- `save_workout_log`: full-file rewrite with `to_csv`. -/
def save_workout_log (df : List WorkoutRow) (fs : DataFiles) : DataFiles :=
  { fs with workout_log := some df }

/-- The Add Food Item action of `food_analyzer_page` (manual entry tab,
lines 291-304): load the log, `pd.concat` one new row, save. -/
def add_food_entry (fs : DataFiles) (today meal_type food_name : String)
    (calories protein carbs fat : ℚ) : DataFiles :=
  let food_log := load_food_log fs
  let new_entry : FoodRow :=
    ⟨today, meal_type, food_name, calories, protein, carbs, fat⟩
  let food_log := food_log ++ [new_entry]
  save_food_log food_log fs

/-- The Log Exercise action of `exercise_page` (lines 338-348), with the
`calories_burned` computation of line 336.  The dict subscript on
`EXERCISE_CATEGORIES` raises `KeyError` on an unknown key, embedded as
`none`. -/
def log_exercise (fs : DataFiles) (today exercise_type exercise : String)
    (duration : Nat) : Option DataFiles :=
  match EXERCISE_CATEGORIES.lookup exercise_type with
  | none => none
  | some cat =>
    let calories_burned := duration * cat.calories_per_minute
    let workout_log := load_workout_log fs
    let new_entry : WorkoutRow :=
      ⟨today, exercise_type, exercise, duration, calories_burned⟩
    let workout_log := workout_log ++ [new_entry]
    some (save_workout_log workout_log fs)

/-- The Log Weight action of `progress_tracker_page` (lines 374-381): load
the progress frame, `pd.concat` one new row with only date and weight,
save. -/
def log_weight (fs : DataFiles) (today : String) (weight : ℚ) : DataFiles :=
  let progress_df := load_progress fs
  let new_entry : ProgressRow := ⟨today, weight, none, none⟩
  let progress_df := progress_df ++ [new_entry]
  save_progress progress_df fs

/-! ### Claim-side definitions -/

/-- The BMR formula as the claim states it (Harris-Benedict). -/
def bmrSpec (weight height age : ℚ) (gender : String) : ℚ :=
  if gender = "Male"
  then 88.362 + 13.397 * weight + 4.799 * height - 5.677 * age
  else 447.593 + 9.247 * weight + 3.098 * height - 4.330 * age

/-- The activity-multiplier table as the claim states it. -/
def activityMultiplierSpec (activity_level : String) : ℚ :=
  if activity_level = "Sedentary" then 1.2
  else if activity_level = "Light" then 1.375
  else if activity_level = "Moderate" then 1.55
  else if activity_level = "Active" then 1.725
  else 1.9

/-- The goal adjustment as the claim states it. -/
def goalDeltaSpec (goal : String) : ℚ :=
  if goal = "Weight Loss" then -500
  else if goal = "Weight Gain" then 500
  else 0

/-- The preprocessing result as the claim describes it: rescale both
dimensions to `floor (dim * 1024 / max)` when the larger dimension exceeds
1024, keep them otherwise, and convert the mode to RGB unless it is already
RGB or L. -/
def preprocessSpec (img : PILImage) : PILImage :=
  let m := max img.width img.height
  { width := if 1024 < m then img.width * 1024 / m else img.width
    height := if 1024 < m then img.height * 1024 / m else img.height
    mode := if img.mode = "RGB" ∨ img.mode = "L" then img.mode else "RGB" }

/-- A model response wrapped in a Markdown code fence: backquotes on both
sides, an optional leading `json` tag, and whitespace around the JSON
body. -/
def fencedText (bt1 : Nat) (tag : Bool) (w1 body w2 : List Char)
    (bt2 : Nat) : List Char :=
  List.replicate bt1 backquote ++ (if tag then ['j', 's', 'o', 'n'] else []) ++
    w1 ++ body ++ w2 ++ List.replicate bt2 backquote

/-- A `json.loads` stand-in for witnesses: fails on every input with the
message CPython produces on non-JSON text. -/
def constFailLoads : List Char → Except String Json :=
  fun _ => .error "Expecting value: line 1 column 1 (char 0)"

/-- A `json.loads` stand-in for witnesses: accepts the empty object,
tolerating leading whitespace. -/
def toyLoads : List Char → Except String Json :=
  fun l => if l.dropWhile isPyWS = [lbrace, rbrace] then .ok (.obj [])
           else .error "Expecting value: line 1 column 1 (char 0)"

/-! ### Theorems -/

/-- C8: `save_data(d)` followed by `load_data()` returns `d`; the stored
state after `save_data(d)` is `d` whatever the file held before (full-file
rewrite, last writer wins); and `save_food_log` followed by `load_food_log`
round-trips the rows of the table. -/
theorem persistence_last_writer_round_trip (fs : DataFiles) (d : Json)
    (rows : List FoodRow) :
    load_data (save_data d fs) = d ∧
    (save_data d fs).user_data = some d ∧
    load_food_log (save_food_log rows fs) = rows ∧
    (save_food_log rows fs).food_log = some rows :=
  ⟨rfl, rfl, rfl, rfl⟩

/-- C7: each log-add operation (food entry, exercise entry, weight entry)
saves a table equal to the previously loaded table with exactly one new row
appended at the end; every pre-existing row is unchanged and keeps its
original position. -/
theorem log_add_appends_one_row (fs : DataFiles)
    (today meal_type food_name : String) (calories protein carbs fat : ℚ)
    (exercise_type exercise : String) (duration : Nat) (w : ℚ)
    (cat : ExerciseCategory)
    (hcat : EXERCISE_CATEGORIES.lookup exercise_type = some cat) :
    (load_food_log
        (add_food_entry fs today meal_type food_name calories protein carbs fat) =
      load_food_log fs ++
        [⟨today, meal_type, food_name, calories, protein, carbs, fat⟩]) ∧
    (∀ i, i < (load_food_log fs).length →
      (load_food_log
          (add_food_entry fs today meal_type food_name calories protein carbs fat)).get? i =
        (load_food_log fs).get? i) ∧
    (log_exercise fs today exercise_type exercise duration =
      some (save_workout_log (load_workout_log fs ++
        [⟨today, exercise_type, exercise, duration,
          duration * cat.calories_per_minute⟩]) fs)) ∧
    (∀ fs2, log_exercise fs today exercise_type exercise duration = some fs2 →
      load_workout_log fs2 = load_workout_log fs ++
          [⟨today, exercise_type, exercise, duration,
            duration * cat.calories_per_minute⟩] ∧
      ∀ i, i < (load_workout_log fs).length →
        (load_workout_log fs2).get? i = (load_workout_log fs).get? i) ∧
    (load_progress (log_weight fs today w) =
      load_progress fs ++ [⟨today, w, none, none⟩]) ∧
    (∀ i, i < (load_progress fs).length →
      (load_progress (log_weight fs today w)).get? i =
        (load_progress fs).get? i) := by
  have hex : log_exercise fs today exercise_type exercise duration =
      some (save_workout_log (load_workout_log fs ++
        [⟨today, exercise_type, exercise, duration,
          duration * cat.calories_per_minute⟩]) fs) := by
    unfold log_exercise
    rw [hcat]
  refine ⟨rfl, ?_, hex, ?_, rfl, ?_⟩
  · intro i hi
    exact List.get?_append hi
  · intro fs2 h2
    rw [hex] at h2
    cases h2
    exact ⟨rfl, fun i hi => List.get?_append hi⟩
  · intro i hi
    exact List.get?_append hi

/-- C7 witness at a concrete state: one food row appended to an empty log
and one Cardio exercise appended to a one-row workout log. -/
theorem log_add_appends_one_row_witness :
    (load_food_log
        (add_food_entry ⟨none, none, none, none⟩ "2026-10-12" "Lunch" "Rice"
          200 4 45 1) =
      [⟨"2026-10-12", "Lunch", "Rice", 200, 4, 45, 1⟩]) ∧
    (log_exercise
        ⟨none, none, none,
          some [⟨"2026-10-11", "Cardio", "Running", 10, 70⟩]⟩
        "2026-10-12" "Cardio" "Walking" 30 =
      some (save_workout_log
        [⟨"2026-10-11", "Cardio", "Running", 10, 70⟩,
         ⟨"2026-10-12", "Cardio", "Walking", 30, 210⟩]
        ⟨none, none, none,
          some [⟨"2026-10-11", "Cardio", "Running", 10, 70⟩]⟩)) := by
  have h := log_add_appends_one_row
    ⟨none, none, none, some [⟨"2026-10-11", "Cardio", "Running", 10, 70⟩]⟩
    "2026-10-12" "Lunch" "Rice" 200 4 45 1 "Cardio" "Walking" 30 60
    ⟨["Walking", "Running", "Cycling", "Swimming", "Jump Rope"], 7⟩ rfl
  have h2 := log_add_appends_one_row ⟨none, none, none, none⟩
    "2026-10-12" "Lunch" "Rice" 200 4 45 1 "Cardio" "Walking" 30 60
    ⟨["Walking", "Running", "Cycling", "Swimming", "Jump Rope"], 7⟩ rfl
  exact ⟨h2.1, h.2.2.1⟩

/-- C3: when the prepared response text (backquotes stripped, whitespace
stripped, optional leading `json` tag dropped) is not valid JSON,
`extract_nutrition_info` raises a `ValueError` carrying the original decode
message, consumes exactly one model response (no retry), and returns no
partial or fallback result. -/
theorem extract_nutrition_info_error_spec
    (loads : List Char → Except String Json) (text : String)
    (rest : List (Except String String)) (image : PILImage) (msg : String)
    (h : loads (strip_model_text text.data) = .error msg) :
    extract_nutrition_info loads (.ok text :: rest) image =
      (.error (.valueError ("Error analyzing image: " ++ msg)), rest) := by
  unfold extract_nutrition_info
  dsimp only []
  rw [h]

/-- C3 witness: a decoder that fails on everything, applied to the
response text `hello`. -/
theorem extract_nutrition_info_error_spec_witness :
    extract_nutrition_info constFailLoads [.ok "hello"] ⟨1, 1, "RGB"⟩ =
      (.error (.valueError
        "Error analyzing image: Expecting value: line 1 column 1 (char 0)"),
       []) :=
  extract_nutrition_info_error_spec constFailLoads "hello" [] ⟨1, 1, "RGB"⟩
    "Expecting value: line 1 column 1 (char 0)" rfl

/-- C1 (code bug): for every input image whose preprocessing succeeds and
whatever the model would answer, `analyze_nutrition(image_file, "Food
Label")` never reaches the model: the bound call
`analyzer.get_analysis_prompt(image_type)` supplies two positional arguments
to a method defined with one, so the pipeline always raises
`ValueError("Analysis failed: get_analysis_prompt() takes 1 positional
argument but 2 were given")` instead of returning the claimed
nutrition-data/health-score dict. -/
theorem analyze_nutrition_label_always_raises
    (loads : List Char → Except String Json)
    (responses : List (Except String String))
    (image_file : Except String PILImage) (img : PILImage)
    (h : preprocess_image image_file = .ok img) :
    analyze_nutrition loads responses image_file "Food Label" =
      (.error (.valueError
        "Analysis failed: get_analysis_prompt() takes 1 positional argument but 2 were given"),
       responses) := by
  unfold analyze_nutrition
  rw [h]
  rfl

/-- C1 witness: a 100 x 100 RGB image decodes, preprocessing succeeds, and
the call still raises. -/
theorem analyze_nutrition_label_always_raises_witness :
    analyze_nutrition constFailLoads [.ok "\x7b\"calories\": 100\x7d"]
      (.ok ⟨100, 100, "RGB"⟩) "Food Label" =
      (.error (.valueError
        "Analysis failed: get_analysis_prompt() takes 1 positional argument but 2 were given"),
       [.ok "\x7b\"calories\": 100\x7d"]) :=
  analyze_nutrition_label_always_raises constFailLoads
    [.ok "\x7b\"calories\": 100\x7d"] (.ok ⟨100, 100, "RGB"⟩)
    ⟨100, 100, "RGB"⟩ rfl

/-- C2: each component score is 1 exactly when its threshold comparison
holds (calories ≤ 300, sugar ≤ 25, saturated_fat ≤ 5, sodium ≤ 600,
protein ≥ 5; an absent key reads as 0) and 0 otherwise; the total score is
the sum of the five component scores divided by 5 times 100, hence always
one of 0, 20, 40, 60, 80, 100. -/
theorem calculate_health_score_spec (nutrition_data : List (String × ℚ)) :
    ((calculate_health_score nutrition_data).component_scores.calories = 1 ↔
        pyGet nutrition_data "calories" ≤ 300) ∧
    ((calculate_health_score nutrition_data).component_scores.sugar = 1 ↔
        pyGet nutrition_data "sugar" ≤ 25) ∧
    ((calculate_health_score nutrition_data).component_scores.saturated_fat = 1 ↔
        pyGet nutrition_data "saturated_fat" ≤ 5) ∧
    ((calculate_health_score nutrition_data).component_scores.sodium = 1 ↔
        pyGet nutrition_data "sodium" ≤ 600) ∧
    ((calculate_health_score nutrition_data).component_scores.protein = 1 ↔
        pyGet nutrition_data "protein" ≥ 5) ∧
    ((calculate_health_score nutrition_data).component_scores.calories = 1 ∨
        (calculate_health_score nutrition_data).component_scores.calories = 0) ∧
    ((calculate_health_score nutrition_data).component_scores.sugar = 1 ∨
        (calculate_health_score nutrition_data).component_scores.sugar = 0) ∧
    ((calculate_health_score nutrition_data).component_scores.saturated_fat = 1 ∨
        (calculate_health_score nutrition_data).component_scores.saturated_fat = 0) ∧
    ((calculate_health_score nutrition_data).component_scores.sodium = 1 ∨
        (calculate_health_score nutrition_data).component_scores.sodium = 0) ∧
    ((calculate_health_score nutrition_data).component_scores.protein = 1 ∨
        (calculate_health_score nutrition_data).component_scores.protein = 0) ∧
    (calculate_health_score nutrition_data).total_score =
      (((calculate_health_score nutrition_data).component_scores.calories +
        (calculate_health_score nutrition_data).component_scores.sugar +
        (calculate_health_score nutrition_data).component_scores.saturated_fat +
        (calculate_health_score nutrition_data).component_scores.sodium +
        (calculate_health_score nutrition_data).component_scores.protein : ℕ) : ℚ)
        / 5 * 100 ∧
    ((calculate_health_score nutrition_data).total_score = 0 ∨
     (calculate_health_score nutrition_data).total_score = 20 ∨
     (calculate_health_score nutrition_data).total_score = 40 ∨
     (calculate_health_score nutrition_data).total_score = 60 ∨
     (calculate_health_score nutrition_data).total_score = 80 ∨
     (calculate_health_score nutrition_data).total_score = 100) := by
  have hc : thresholdOf "calories" = 300 := rfl
  have hsu : thresholdOf "sugar" = 25 := rfl
  have hsf : thresholdOf "saturated_fat" = 5 := rfl
  have hso : thresholdOf "sodium" = 600 := rfl
  have hp : thresholdOf "protein" = 5 := rfl
  unfold calculate_health_score
  rw [hc, hsu, hsf, hso, hp]
  dsimp only []
  split_ifs <;> norm_num <;> (repeat' apply And.intro) <;> linarith

set_option maxHeartbeats 2000000 in
/-- C10: `generate_recommendations` always returns a non-empty list; each of
the four nutrient recommendations appears exactly when that nutrient's
component score from `calculate_health_score` is 0 (the strict recommendation
cutoffs complement the non-strict scoring cutoffs); and when none of the four
appears the list is exactly the single healthy-guidelines message. -/
theorem generate_recommendations_matches_scores
    (nutrition_data : List (String × ℚ)) (hs0 : HealthScore) :
    generate_recommendations nutrition_data hs0 ≠ [] ∧
    (portionRec ∈ generate_recommendations nutrition_data hs0 ↔
      (calculate_health_score nutrition_data).component_scores.calories = 0) ∧
    (sugarRec ∈ generate_recommendations nutrition_data hs0 ↔
      (calculate_health_score nutrition_data).component_scores.sugar = 0) ∧
    (satFatRec ∈ generate_recommendations nutrition_data hs0 ↔
      (calculate_health_score nutrition_data).component_scores.saturated_fat = 0) ∧
    (sodiumRec ∈ generate_recommendations nutrition_data hs0 ↔
      (calculate_health_score nutrition_data).component_scores.sodium = 0) ∧
    ((portionRec ∉ generate_recommendations nutrition_data hs0 ∧
      sugarRec ∉ generate_recommendations nutrition_data hs0 ∧
      satFatRec ∉ generate_recommendations nutrition_data hs0 ∧
      sodiumRec ∉ generate_recommendations nutrition_data hs0) →
      generate_recommendations nutrition_data hs0 = [healthyRec]) := by
  have hc : thresholdOf "calories" = 300 := rfl
  have hsu : thresholdOf "sugar" = 25 := rfl
  have hsf : thresholdOf "saturated_fat" = 5 := rfl
  have hso : thresholdOf "sodium" = 600 := rfl
  have hp : thresholdOf "protein" = 5 := rfl
  have d1 : portionRec ≠ sugarRec := by decide
  have d2 : portionRec ≠ satFatRec := by decide
  have d3 : portionRec ≠ sodiumRec := by decide
  have d4 : portionRec ≠ healthyRec := by decide
  have d5 : sugarRec ≠ satFatRec := by decide
  have d6 : sugarRec ≠ sodiumRec := by decide
  have d7 : sugarRec ≠ healthyRec := by decide
  have d8 : satFatRec ≠ sodiumRec := by decide
  have d9 : satFatRec ≠ healthyRec := by decide
  have d10 : sodiumRec ≠ healthyRec := by decide
  have e1 : sugarRec ≠ portionRec := d1.symm
  have e2 : satFatRec ≠ portionRec := d2.symm
  have e3 : sodiumRec ≠ portionRec := d3.symm
  have e4 : healthyRec ≠ portionRec := d4.symm
  have e5 : satFatRec ≠ sugarRec := d5.symm
  have e6 : sodiumRec ≠ sugarRec := d6.symm
  have e7 : healthyRec ≠ sugarRec := d7.symm
  have e8 : sodiumRec ≠ satFatRec := d8.symm
  have e9 : healthyRec ≠ satFatRec := d9.symm
  have e10 : healthyRec ≠ sodiumRec := d10.symm
  unfold generate_recommendations calculate_health_score
  rw [hc, hsu, hsf, hso, hp]
  dsimp only []
  simp only [gt_iff_lt, ← not_le]
  split_ifs <;>
    simp_all [List.mem_cons, List.mem_singleton]

/-- C5: for every weight, height, age, gender, goal, and an activity level
in the table, `calculate_daily_calories` returns
`round(bmr * multiplier + delta)` with the Harris-Benedict `bmr` selected by
gender, the tabulated multiplier, and delta -500 / +500 / 0 for Weight
Loss / Weight Gain / anything else. -/
theorem calculate_daily_calories_spec (weight height age : ℚ)
    (gender activity_level goal : String)
    (h : activity_level = "Sedentary" ∨ activity_level = "Light" ∨
      activity_level = "Moderate" ∨ activity_level = "Active" ∨
      activity_level = "Very Active") :
    calculate_daily_calories weight height age gender activity_level goal =
      some (pyRound (bmrSpec weight height age gender *
        activityMultiplierSpec activity_level + goalDeltaSpec goal)) := by
  have hmul : activity_multipliers.lookup activity_level =
      some (activityMultiplierSpec activity_level) := by
    rcases h with rfl | rfl | rfl | rfl | rfl <;> rfl
  unfold calculate_daily_calories
  rw [hmul]
  unfold bmrSpec goalDeltaSpec
  dsimp only []
  split_ifs <;>
    exact congrArg (fun q => some (pyRound q)) (by ring)

/-- C5 witness at weight 70, height 170, age 30, Male, Moderate,
Maintenance. -/
theorem calculate_daily_calories_spec_witness :
    calculate_daily_calories 70 170 30 "Male" "Moderate" "Maintenance" =
      some (pyRound (bmrSpec 70 170 30 "Male" *
        activityMultiplierSpec "Moderate" + goalDeltaSpec "Maintenance")) :=
  calculate_daily_calories_spec 70 170 30 "Male" "Moderate" "Maintenance"
    (by decide)

/-- C6: for positive weight and height, `calculate_bmi` is
`round(weight / (height_cm / 100) ^ 2, 2)`, and `get_bmi_category` returns
Underweight / Normal weight / Overweight / Obese exactly on b < 18.5,
18.5 ≤ b < 25, 25 ≤ b < 30, 30 ≤ b. -/
theorem calculate_bmi_category_spec (weight height_cm : ℚ)
    (hw : 0 < weight) (hh : 0 < height_cm) :
    calculate_bmi weight height_cm = pyRound2 (weight / (height_cm / 100) ^ 2) ∧
    ∀ b : ℚ,
      (get_bmi_category b = "Underweight" ↔ b < 18.5) ∧
      (get_bmi_category b = "Normal weight" ↔ 18.5 ≤ b ∧ b < 25) ∧
      (get_bmi_category b = "Overweight" ↔ 25 ≤ b ∧ b < 30) ∧
      (get_bmi_category b = "Obese" ↔ 30 ≤ b) := by
  constructor
  · unfold calculate_bmi
    exact congrArg pyRound2 (by ring_nf)
  · intro b
    have s1 : ("Underweight" : String) ≠ "Normal weight" := by decide
    have s2 : ("Underweight" : String) ≠ "Overweight" := by decide
    have s3 : ("Underweight" : String) ≠ "Obese" := by decide
    have s4 : ("Normal weight" : String) ≠ "Overweight" := by decide
    have s5 : ("Normal weight" : String) ≠ "Obese" := by decide
    have s6 : ("Overweight" : String) ≠ "Obese" := by decide
    unfold get_bmi_category
    split_ifs with h1 h2 h3 <;>
      refine ⟨?_, ?_, ?_, ?_⟩ <;>
      simp_all <;> try (intros; linarith)

/-- C6 witness at weight 70 kg, height 170 cm. -/
theorem calculate_bmi_category_spec_witness :
    (0 : ℚ) < 70 ∧ (0 : ℚ) < 170 ∧
    (calculate_bmi 70 170 = pyRound2 (70 / ((170 : ℚ) / 100) ^ 2) ∧
     ∀ b : ℚ,
       (get_bmi_category b = "Underweight" ↔ b < 18.5) ∧
       (get_bmi_category b = "Normal weight" ↔ 18.5 ≤ b ∧ b < 25) ∧
       (get_bmi_category b = "Overweight" ↔ 25 ≤ b ∧ b < 30) ∧
       (get_bmi_category b = "Obese" ↔ 30 ≤ b)) :=
  ⟨by norm_num, by norm_num,
   calculate_bmi_category_spec 70 170 (by norm_num) (by norm_num)⟩

/-- C9: on every decodable image, preprocessing rescales both dimensions to
`floor (dim * 1024 / max)` when the larger dimension exceeds 1024, keeps
them otherwise, converts the mode to RGB unless it is RGB or L already, and
the resulting larger dimension is at most 1024. -/
theorem preprocess_image_resizes (img : PILImage) :
    preprocess_image (.ok img) = .ok (preprocessSpec img) ∧
    max (preprocessSpec img).width (preprocessSpec img).height ≤ 1024 := by
  constructor
  · simp only [preprocess_image, preprocessSpec]
    by_cases hm : img.mode = "RGB" ∨ img.mode = "L"
    · rw [if_pos hm, if_pos hm]
      by_cases hsz : 1024 < max img.width img.height <;>
        simp [hsz, gt_iff_lt]
    · rw [if_neg hm, if_neg hm]
      by_cases hsz : 1024 < max img.width img.height <;>
        simp [hsz, gt_iff_lt]
  · unfold preprocessSpec
    by_cases hsz : 1024 < max img.width img.height
    · have h0 : 0 < max img.width img.height := by omega
      have hwb : img.width * 1024 / max img.width img.height ≤ 1024 := by
        calc img.width * 1024 / max img.width img.height ≤
            max img.width img.height * 1024 / max img.width img.height :=
              Nat.div_le_div_right
                (Nat.mul_le_mul_right 1024 (le_max_left _ _))
          _ = 1024 := Nat.mul_div_cancel_left 1024 h0
      have hhb : img.height * 1024 / max img.width img.height ≤ 1024 := by
        calc img.height * 1024 / max img.width img.height ≤
            max img.width img.height * 1024 / max img.width img.height :=
              Nat.div_le_div_right
                (Nat.mul_le_mul_right 1024 (le_max_right _ _))
          _ = 1024 := Nat.mul_div_cancel_left 1024 h0
      simp only [hsz, if_pos]
      exact max_le hwb hhb
    · simp only [hsz, if_neg, not_false_iff]
      exact max_le (by omega) (by omega)

/-- Dropping over an initial segment that wholly satisfies `p`. -/
theorem dropWhile_append_all {p : Char → Bool} {l1 l2 : List Char}
    (h : ∀ c ∈ l1, p c = true) :
    (l1 ++ l2).dropWhile p = l2.dropWhile p := by
  induction l1 with
  | nil => rfl
  | cons c t ih =>
    have hc : p c = true := h c (List.mem_cons_self c t)
    rw [List.cons_append, List.dropWhile_cons, if_pos hc]
    exact ih (fun x hx => h x (List.mem_cons_of_mem c hx))

/-- `dropWhile` removes exactly an all-`p` padding before a block whose head
fails `p`. -/
theorem dropWhile_pad_left {p : Char → Bool} {a m : List Char}
    (ha : ∀ c ∈ a, p c = true)
    (hm : ∀ c, m.head? = some c → p c = false) :
    (a ++ m).dropWhile p = m := by
  rw [dropWhile_append_all ha]
  cases m with
  | nil => rfl
  | cons c t => rw [List.dropWhile_cons, if_neg (by simp [hm c rfl])]

/-- Two-sided `strip` removes exactly an all-`p` padding around a block
whose first and last characters fail `p`. -/
theorem pyStrip_wrap {p : Char → Bool} {a m b : List Char}
    (ha : ∀ c ∈ a, p c = true) (hb : ∀ c ∈ b, p c = true)
    (hm1 : ∀ c, m.head? = some c → p c = false)
    (hm2 : ∀ c, m.getLast? = some c → p c = false) :
    pyStrip p (a ++ (m ++ b)) = m := by
  unfold pyStrip
  cases m with
  | nil =>
    have h1 : (a ++ ([] ++ b)).dropWhile p = [] := by
      rw [List.dropWhile_eq_nil_iff]
      intro x hx
      simp only [List.nil_append, List.mem_append] at hx
      rcases hx with h | h
      · exact ha x h
      · exact hb x h
    rw [h1]
    rfl
  | cons c t =>
    have h1 : (a ++ ((c :: t) ++ b)).dropWhile p = (c :: t) ++ b := by
      apply dropWhile_pad_left ha
      intro d hd
      rw [List.cons_append, List.head?_cons] at hd
      injection hd with h
      subst h
      exact hm1 c rfl
    have h2 : ((c :: t) ++ b).reverse.dropWhile p = (c :: t).reverse := by
      rw [List.reverse_append]
      apply dropWhile_pad_left
      · intro d hd
        rw [List.mem_reverse] at hd
        exact hb d hd
      · intro d hd
        rw [List.head?_reverse] at hd
        exact hm2 d hd
    rw [h1, h2, List.reverse_reverse]

/-- The last element delivered by `getLast?` is a member of the list. -/
theorem mem_of_getLast_some {l : List Char} {c : Char}
    (h : l.getLast? = some c) : c ∈ l := by
  induction l with
  | nil => simp at h
  | cons a t ih =>
    cases t with
    | nil =>
      simp at h
      simp [h]
    | cons b u =>
      rw [List.getLast?_cons_cons] at h
      exact List.mem_cons_of_mem a (ih h)

/-- No whitespace character is a backquote. -/
theorem ws_not_bq {c : Char} (h : isPyWS c = true) : isBq c = false := by
  unfold isPyWS at h
  simp only [Bool.or_eq_true, beq_iff_eq] at h
  rcases h with ((((rfl | rfl) | rfl) | rfl) | rfl) | rfl <;> decide

/-- C4: a model response that is a valid JSON object, possibly wrapped in a
Markdown code fence (backquotes enclosing an optional leading `json` tag and
whitespace around the object text), decodes to exactly that object: the
fence is peeled off and `extract_nutrition_info` returns the decoded value.
`loads` is only assumed to ignore the leading whitespace left over between
the tag and the object text (`hwsTol`), as Python `json.loads` does. -/
theorem extract_nutrition_info_fenced_json_spec
    (loads : List Char → Except String Json)
    (rest : List (Except String String)) (image : PILImage)
    (bt1 bt2 : Nat) (tag : Bool) (w1 body w2 : List Char) (J : Json)
    (hw1 : ∀ c ∈ w1, isPyWS c = true) (hw2 : ∀ c ∈ w2, isPyWS c = true)
    (hb1 : body.head? = some lbrace)
    (hb2 : body.getLast? = some rbrace)
    (hwsTol : loads (w1 ++ body) = loads body)
    (hJ : loads body = Except.ok J) :
    extract_nutrition_info loads
      (.ok (String.mk (fencedText bt1 tag w1 body w2 bt2)) :: rest) image =
      (Except.ok J, rest) := by
  obtain ⟨t, rfl⟩ : ∃ t, body = lbrace :: t := by
    cases body with
    | nil => simp at hb1
    | cons c u =>
      rw [List.head?_cons] at hb1
      injection hb1 with h
      exact ⟨u, by rw [h]⟩
  have hrepl1 : ∀ c ∈ List.replicate bt1 backquote, isBq c = true := by
    intro c hc
    rw [List.mem_replicate] at hc
    rw [hc.2]
    decide
  have hrepl2 : ∀ c ∈ List.replicate bt2 backquote, isBq c = true := by
    intro c hc
    rw [List.mem_replicate] at hc
    rw [hc.2]
    decide
  have hXne : (lbrace :: t) ++ w2 ≠ [] := by simp
  have hWXne : w1 ++ ((lbrace :: t) ++ w2) ≠ [] := by simp
  have hlastA : ∀ c, ((lbrace :: t) ++ w2).getLast? = some c → isBq c = false := by
    intro c hc
    rcases eq_or_ne w2 [] with rfl | hne
    · rw [List.append_nil, hb2] at hc
      injection hc with h
      subst h
      decide
    · rw [List.getLast?_append_of_ne_nil _ hne] at hc
      exact ws_not_bq (hw2 c (mem_of_getLast_some hc))
  have hlastWB : ∀ c, (w1 ++ ((lbrace :: t) ++ w2)).getLast? = some c →
      isBq c = false := by
    intro c hc
    rw [List.getLast?_append_of_ne_nil _ hXne] at hc
    exact hlastA c hc
  have hheadWB : ∀ c, (w1 ++ ((lbrace :: t) ++ w2)).head? = some c →
      isBq c = false := by
    intro c hc
    cases w1 with
    | nil =>
      rw [List.nil_append, List.cons_append, List.head?_cons] at hc
      injection hc with h
      subst h
      decide
    | cons d u =>
      rw [List.cons_append, List.head?_cons] at hc
      injection hc with h
      subst h
      exact ws_not_bq (hw1 d (List.mem_cons_self d u))
  have hheadBody : ∀ c, (lbrace :: t).head? = some c → isPyWS c = false := by
    intro c hc
    rw [List.head?_cons] at hc
    injection hc with h
    subst h
    decide
  have hlastBody : ∀ c, (lbrace :: t).getLast? = some c → isPyWS c = false := by
    intro c hc
    rw [hb2] at hc
    injection hc with h
    subst h
    decide
  cases tag with
  | false =>
    have hargF : fencedText bt1 false w1 (lbrace :: t) w2 bt2 =
        List.replicate bt1 backquote ++
          ((w1 ++ ((lbrace :: t) ++ w2)) ++ List.replicate bt2 backquote) := by
      simp [fencedText, List.append_assoc]
    have hA : pyStrip isBq (fencedText bt1 false w1 (lbrace :: t) w2 bt2) =
        w1 ++ ((lbrace :: t) ++ w2) := by
      rw [hargF]
      exact pyStrip_wrap hrepl1 hrepl2 hheadWB hlastWB
    have hB : pyStrip isPyWS (w1 ++ ((lbrace :: t) ++ w2)) = lbrace :: t :=
      pyStrip_wrap hw1 hw2 hheadBody hlastBody
    have hC : startsWithJson (lbrace :: t) = false := by
      unfold startsWithJson
      apply decide_eq_false
      intro h
      have h2 : lbrace :: t.take 3 = ['j', 's', 'o', 'n'] := h
      injection h2 with h1 _
      exact absurd h1 (by decide)
    unfold extract_nutrition_info strip_model_text
    dsimp only []
    rw [hA, hB, hC]
    rw [if_neg (by simp)]
    rw [hJ]
  | true =>
    have hargT : fencedText bt1 true w1 (lbrace :: t) w2 bt2 =
        List.replicate bt1 backquote ++
          ((['j', 's', 'o', 'n'] ++ (w1 ++ ((lbrace :: t) ++ w2))) ++
            List.replicate bt2 backquote) := by
      simp [fencedText, List.append_assoc]
    have hheadJbq : ∀ c,
        (['j', 's', 'o', 'n'] ++ (w1 ++ ((lbrace :: t) ++ w2))).head? = some c →
        isBq c = false := by
      intro c hc
      have hc2 : some 'j' = some c := hc
      injection hc2 with h
      subst h
      decide
    have hlastJbq : ∀ c,
        (['j', 's', 'o', 'n'] ++ (w1 ++ ((lbrace :: t) ++ w2))).getLast? = some c →
        isBq c = false := by
      intro c hc
      rw [List.getLast?_append_of_ne_nil _ hWXne] at hc
      exact hlastWB c hc
    have hA : pyStrip isBq (fencedText bt1 true w1 (lbrace :: t) w2 bt2) =
        ['j', 's', 'o', 'n'] ++ (w1 ++ ((lbrace :: t) ++ w2)) := by
      rw [hargT]
      exact pyStrip_wrap hrepl1 hrepl2 hheadJbq hlastJbq
    have hshape : ['j', 's', 'o', 'n'] ++ (w1 ++ ((lbrace :: t) ++ w2)) =
        [] ++ ((['j', 's', 'o', 'n'] ++ (w1 ++ (lbrace :: t))) ++ w2) := by
      simp [List.append_assoc]
    have hWBne : w1 ++ (lbrace :: t) ≠ [] := by simp
    have hheadJws : ∀ c,
        (['j', 's', 'o', 'n'] ++ (w1 ++ (lbrace :: t))).head? = some c →
        isPyWS c = false := by
      intro c hc
      have hc2 : some 'j' = some c := hc
      injection hc2 with h
      subst h
      decide
    have hlastJws : ∀ c,
        (['j', 's', 'o', 'n'] ++ (w1 ++ (lbrace :: t))).getLast? = some c →
        isPyWS c = false := by
      intro c hc
      rw [List.getLast?_append_of_ne_nil _ hWBne,
        List.getLast?_append_of_ne_nil _ (List.cons_ne_nil lbrace t)] at hc
      exact hlastBody c hc
    have hB : pyStrip isPyWS
        (['j', 's', 'o', 'n'] ++ (w1 ++ ((lbrace :: t) ++ w2))) =
        ['j', 's', 'o', 'n'] ++ (w1 ++ (lbrace :: t)) := by
      rw [hshape]
      exact pyStrip_wrap (by intro c hc; simp at hc) hw2 hheadJws hlastJws
    have hC : startsWithJson (['j', 's', 'o', 'n'] ++ (w1 ++ (lbrace :: t))) =
        true := by
      unfold startsWithJson
      apply decide_eq_true
      rfl
    unfold extract_nutrition_info strip_model_text
    dsimp only []
    rw [hA, hB, hC]
    rw [if_pos rfl]
    rw [show (['j', 's', 'o', 'n'] ++ (w1 ++ (lbrace :: t))).drop 4 =
      w1 ++ (lbrace :: t) from rfl]
    rw [hwsTol, hJ]

/-- C4 witness: the response is three backquotes, a `json` tag, a newline,
the empty object, a newline, and three closing backquotes; the decoder
accepts the empty object up to leading whitespace. -/
theorem extract_nutrition_info_fenced_json_spec_witness :
    extract_nutrition_info toyLoads
      [.ok (String.mk (fencedText 3 true ['\n'] [lbrace, rbrace] ['\n'] 3))]
      ⟨1, 1, "RGB"⟩ =
      (Except.ok (Json.obj []), []) :=
  extract_nutrition_info_fenced_json_spec toyLoads [] ⟨1, 1, "RGB"⟩ 3 3 true
    ['\n'] [lbrace, rbrace] ['\n'] (Json.obj [])
    (by decide) (by decide) rfl rfl rfl rfl

